import Mathlib

/-!
Verification of the role-gated ticket-lifecycle and authentication logic of the
Smart City incident dashboard. The definitions below are a shallow embedding of
the TypeScript front-end code (OfficialDashboard.tsx, RouteGuard.tsx,
OfficialLoginFormComponent.tsx and the auth/ticket service modules): JavaScript
strings become Lean `String`, optional fields become `Option`, JavaScript
truthiness of a string is modelled explicitly, and each event handler becomes a
pure function from its inputs (including the server response it awaits) to the
resulting client state, toast and navigation.
-/

namespace SmartCity

/-- JavaScript truthiness of an optional string: `undefined`, `null` and the
empty string are falsy. Models checks such as `if (ticket.workerId)`. -/
def optTruthy (s : Option String) : Bool :=
  match s with
  | some v => !v.isEmpty
  | none => false

/-- Models `Array.isArray(a) && a.length > 0` for an optional array field. -/
def jsArrayNonempty {α : Type} (a : Option (List α)) : Bool :=
  match a with
  | some l => decide (0 < l.length)
  | none => false

/-- A character the model of JavaScript `trim()` removes. -/
def charIsSpace (c : Char) : Bool :=
  c = ' ' || c = '\t' || c = '\n' || c = '\r'

/-- Model of JavaScript `String.prototype.trim()`. -/
def jsTrim (s : String) : String :=
  String.mk (((s.data.dropWhile charIsSpace).reverse.dropWhile charIsSpace).reverse)

/-- Model of JavaScript `String.prototype.toLowerCase()` on the ASCII role
strings this code base compares against. -/
def jsToLower (s : String) : String :=
  String.mk (s.data.map Char.toLower)

/-- Replace the first occurrence of a character, as JavaScript
`replace('-', '_')` with a string pattern replaces only the first match. -/
def replaceFirstChar : List Char → Char → Char → List Char
  | [], _, _ => []
  | c :: rest, a, b => if c = a then b :: rest else c :: replaceFirstChar rest a b

/-- Model of `value.replace('-', '_')` from `toRole`. -/
def jsReplaceDashUnderscore (s : String) : String :=
  String.mk (replaceFirstChar s.data '-' '_')

/-- Models `response.error || 'fallback'`: the fallback is used when the error
field is absent or the empty string (both falsy in JavaScript). -/
def jsErrText (e : Option String) (fallback : String) : String :=
  match e with
  | some s => if s.isEmpty then fallback else s
  | none => fallback

/-- The dashboard role vocabulary (`DashboardRole` in OfficialDashboard.tsx). -/
inductive Role : Type
  | department
  | supervisor
  | field_inspector
  | worker
deriving DecidableEq, Repr

/-- One row of `ticket.assignees` (services/tickets `Ticket` interface). -/
structure Assignee where
  workerId : String
  name : String
deriving DecidableEq, Repr

/-- `ticket.reopenedBy` metadata (all fields optional in the interface). -/
structure ReopenedBy where
  id : Option String
  name : Option String
  timestamp : Option String
deriving DecidableEq, Repr

/-- `ticket.reopenWarning` metadata; only its presence and message matter to
the dashboard logic. -/
structure ReopenWarning where
  message : String
deriving DecidableEq, Repr

/-- The fields of the `Ticket` interface that the dashboard's gating logic
reads. `status` stays a plain string exactly as in the TypeScript union. -/
structure Ticket where
  id : String
  status : String
  assignedTo : Option String
  assigneeName : Option String
  workerId : Option String
  workerIds : Option (List String)
  assignees : Option (List Assignee)
  fieldInspectorId : Option String
  progressSummary : Option String
  reopenedBy : Option ReopenedBy
  reopenWarning : Option ReopenWarning
deriving DecidableEq, Repr

example : jsTrim "  a b " = "a b" := by decide
example : jsToLower "Field-Inspector" = "field-inspector" := by decide
example : jsReplaceDashUnderscore "field-inspector" = "field_inspector" := by decide
example : ("ab" == "ab") = true := by decide

/-- The normalization step of `toRole`:
`(value || '').trim().toLowerCase().replace('-', '_')`. -/
def normalizeOfficialRole (value : Option String) : String :=
  jsReplaceDashUnderscore (jsToLower (jsTrim (value.getD "")))

/-- `toRole` from OfficialDashboard.tsx: the normalized string compared
three ways, with a `department` default for everything else. -/
def toRole (value : Option String) : Role :=
  let normalized := normalizeOfficialRole value
  if normalized = "supervisor" then Role.supervisor
  else if normalized = "field_inspector" then Role.field_inspector
  else if normalized = "worker" then Role.worker
  else Role.department

/-- `ticketWorkerNames` from OfficialDashboard.tsx: trimmed non-empty names
from `assignees[]` when that array is non-empty, else a singleton from
`assigneeName`, else from `assignedTo`, else empty. -/
def ticketWorkerNames (t : Ticket) : List String :=
  if jsArrayNonempty t.assignees then
    ((t.assignees.getD []).map (fun row => jsTrim row.name)).filter
      (fun v => decide (0 < v.length))
  else if optTruthy t.assigneeName then [t.assigneeName.getD ""]
  else if optTruthy t.assignedTo then [t.assignedTo.getD ""]
  else []

/-- `ticketWorkerIds` from OfficialDashboard.tsx: trimmed non-empty worker ids
from `assignees[]`; when that yields nothing, the trimmed non-empty entries of
`workerIds[]`; else the singleton `workerId`; else empty. -/
def ticketWorkerIds (t : Ticket) : List String :=
  let fromAssignees :=
    if jsArrayNonempty t.assignees then
      ((t.assignees.getD []).map (fun row => jsTrim row.workerId)).filter
        (fun v => decide (0 < v.length))
    else []
  if 0 < fromAssignees.length then fromAssignees
  else if jsArrayNonempty t.workerIds then
    ((t.workerIds.getD []).map (fun v => jsTrim v)).filter (fun v => decide (0 < v.length))
  else if optTruthy t.workerId then [t.workerId.getD ""]
  else []

/-- `hasAssignedWorker` in the ticket render loop:
`assignedWorkerNames.length > 0`. -/
def hasAssignedWorker (t : Ticket) : Bool :=
  decide (0 < (ticketWorkerNames t).length)

/-- `isReopenedCase`: `Boolean(reopenedBy?.timestamp || reopenedBy?.id ||
reopenedBy?.name || reopenWarning)`. -/
def isReopenedCase (t : Ticket) : Bool :=
  optTruthy (t.reopenedBy.bind (fun r => r.timestamp)) ||
  optTruthy (t.reopenedBy.bind (fun r => r.id)) ||
  optTruthy (t.reopenedBy.bind (fun r => r.name)) ||
  t.reopenWarning.isSome

/-- `canDepartmentManageReopened`: department role, reopened case, status not
`resolved`. -/
def canDepartmentManageReopened (role : Role) (t : Ticket) : Bool :=
  role == Role.department && isReopenedCase t && t.status != "resolved"

/-- `isSupervisorLockedTicket`: the supervisor-style action block is replaced
by a lock notice once the ticket is `verified` or `resolved`. -/
def isSupervisorLockedTicket (role : Role) (t : Ticket) : Bool :=
  (role == Role.supervisor || canDepartmentManageReopened role t) &&
  (t.status == "verified" || t.status == "resolved")

/-- `canReopen`: department on a `resolved` ticket. -/
def canReopen (role : Role) (t : Ticket) : Bool :=
  role == Role.department && t.status == "resolved"

/-- `canResolve`: department on any ticket that is not already `resolved`. -/
def canResolve (role : Role) (t : Ticket) : Bool :=
  role == Role.department && t.status != "resolved"

/-- `canSupervisorResolve`: supervisor, status neither `resolved` nor
`verified`, and not a reopened case. -/
def canSupervisorResolve (role : Role) (t : Ticket) : Bool :=
  role == Role.supervisor && t.status != "resolved" && t.status != "verified" &&
  !isReopenedCase t

/-- `canVerify`: at least one assigned worker, status neither `resolved` nor
`verified`, and either supervisor or department managing a reopened case. -/
def canVerify (role : Role) (t : Ticket) : Bool :=
  hasAssignedWorker t && t.status != "resolved" && t.status != "verified" &&
  (role == Role.supervisor || canDepartmentManageReopened role t)

/-- `showProgressEditor`: the progress editor is rendered on the tickets page
for field inspectors and workers. -/
def showProgressEditor (role : Role) (isTicketsPage : Bool) : Bool :=
  isTicketsPage && (role == Role.field_inspector || role == Role.worker)

/-- `showDepartmentActions`. -/
def showDepartmentActions (role : Role) (isTicketsPage : Bool) : Bool :=
  isTicketsPage && role == Role.department

/-- `showSupervisorActions`. -/
def showSupervisorActions (role : Role) (isTicketsPage : Bool) (t : Ticket) : Bool :=
  isTicketsPage && (role == Role.supervisor || canDepartmentManageReopened role t)

/-- The assign-workers control is rendered exactly when the supervisor action
block is shown and the ticket is not locked (the JSX renders the lock notice
instead of the dropdown and button when `isSupervisorLockedTicket`). -/
def assignActionShown (role : Role) (isTicketsPage : Bool) (t : Ticket) : Bool :=
  showSupervisorActions role isTicketsPage t && !isSupervisorLockedTicket role t

/-- The department Resolve button: inside the department action block, gated by
`canResolve`. -/
def deptResolveButtonShown (role : Role) (isTicketsPage : Bool) (t : Ticket) : Bool :=
  showDepartmentActions role isTicketsPage && canResolve role t

/-- The Reopen button: inside the department action block, gated by
`canReopen`. -/
def reopenButtonShown (role : Role) (isTicketsPage : Bool) (t : Ticket) : Bool :=
  showDepartmentActions role isTicketsPage && canReopen role t

/-- The supervisor Resolve button: inside the unlocked supervisor block, gated
by `canSupervisorResolve`. -/
def supervisorResolveButtonShown (role : Role) (isTicketsPage : Bool) (t : Ticket) : Bool :=
  showSupervisorActions role isTicketsPage t && !isSupervisorLockedTicket role t &&
  canSupervisorResolve role t

/-- The Verify button: inside the unlocked supervisor block, gated by
`canVerify`. -/
def verifyButtonShown (role : Role) (isTicketsPage : Bool) (t : Ticket) : Bool :=
  showSupervisorActions role isTicketsPage t && !isSupervisorLockedTicket role t &&
  canVerify role t

/-- The three status-changing buttons of the dashboard. -/
inductive TicketAction : Type
  | resolveAction
  | reopenAction
  | verifyAction
deriving DecidableEq, Repr

/-- The status string each button's click handler passes to
`handleStatusChange` (lines 429, 439, 525 and 534 of OfficialDashboard.tsx). -/
def statusSent : TicketAction → String
  | TicketAction.resolveAction => "resolved"
  | TicketAction.reopenAction => "open"
  | TicketAction.verifyAction => "verified"

/-- The `{success, data?, error?}` response envelope every service call
resolves to (`ApiResponse` in services/api; the callers never wrap it in
try/catch, so failures arrive as `success = false` with an error string). -/
structure ApiResp (α : Type) where
  success : Bool
  data : Option α
  error : Option String
deriving Repr

/-- A toast notification as the handlers raise it. -/
structure Toast where
  title : String
  description : String
deriving DecidableEq, Repr

/-- The body `ticketService.updateStatus` is sent (the `UpdateStatusData`
payload `{ status }` for ticket `ticketId`). -/
structure StatusRequest where
  ticketId : String
  status : String
deriving DecidableEq, Repr

/-- Result of `handleStatusChange`: the ticket cache afterwards, the request
that was issued, the toast raised, and whether `refetchTickets()` ran. -/
structure StatusChangeResult where
  tickets : List Ticket
  request : StatusRequest
  toast : Toast
  refetched : Bool
deriving Repr

/-- `handleStatusChange` from OfficialDashboard.tsx. `tickets` is the cached
list before the call, `resp` the awaited `ticketService.updateStatus` response
and `serverTickets` what `refetchTickets()` would load. On failure the cache is
untouched and the toast shows `response.error || 'Could not update status.'`;
on success the cache is replaced by the refetched server state. -/
def handleStatusChange (tickets : List Ticket) (ticketId : String) (status : String)
    (resp : ApiResp Ticket) (serverTickets : List Ticket) : StatusChangeResult :=
  if !resp.success then
    { tickets := tickets
      request := { ticketId := ticketId, status := status }
      toast := { title := "Action Failed"
                 description := jsErrText resp.error "Could not update status." }
      refetched := false }
  else
    { tickets := serverTickets
      request := { ticketId := ticketId, status := status }
      toast := { title := "Status Updated"
                 description :=
                   if status = "open" then "Case reopened."
                   else if status = "verified" then "Case verified."
                   else "Case resolved." }
      refetched := true }

/-- The body `ticketService.assignTicket` is sent. -/
structure AssignRequest where
  ticketId : String
  workerIds : List String
deriving DecidableEq, Repr

/-- Result of `handleAssignWorker`: `request = none` means the client-side
validation stopped the call before any network request. -/
structure AssignResult where
  tickets : List Ticket
  toast : Toast
  request : Option AssignRequest
  refetched : Bool
deriving Repr

/-- `handleAssignWorker` from OfficialDashboard.tsx. `localSelection` models
`selectedWorkerByTicket[ticket.id]` when the map has an entry for the ticket
(`none` means no local selection, so the current `ticketWorkerIds` are used). -/
def handleAssignWorker (tickets : List Ticket) (t : Ticket)
    (localSelection : Option (List String))
    (resp : ApiResp Ticket) (serverTickets : List Ticket) : AssignResult :=
  let selectedWorkerIds :=
    match localSelection with
    | some sel => sel
    | none => ticketWorkerIds t
  let workerIds := (selectedWorkerIds.map (fun v => jsTrim v)).filter (fun v => !v.isEmpty)
  if workerIds.length = 0 then
    { tickets := tickets
      toast := { title := "Worker Required"
                 description := "Select one or more registered workers from the dropdown." }
      request := none
      refetched := false }
  else if !resp.success then
    { tickets := tickets
      toast := { title := "Assignment Failed"
                 description := jsErrText resp.error "Could not assign worker." }
      request := some { ticketId := t.id, workerIds := workerIds }
      refetched := false }
  else
    { tickets := serverTickets
      toast := { title := "Workers Assigned", description := "Supervisor assignment saved." }
      request := some { ticketId := t.id, workerIds := workerIds }
      refetched := true }

/-- The body `ticketService.updateProgress` is sent: only the update text, no
status field. -/
structure ProgressRequest where
  ticketId : String
  updateText : String
deriving DecidableEq, Repr

/-- Result of `handleProgressUpdate`; `draftAfter` is the progress draft for
the ticket after the handler runs (cleared only on success). -/
structure ProgressResult where
  tickets : List Ticket
  toast : Toast
  request : Option ProgressRequest
  refetched : Bool
  draftAfter : String
deriving Repr

/-- `handleProgressUpdate` from OfficialDashboard.tsx: trims the draft, rejects
anything under 5 characters client-side without a network request, otherwise
posts `{updateText}` and refetches on success. -/
def handleProgressUpdate (tickets : List Ticket) (ticketId : String) (draft : String)
    (resp : ApiResp Ticket) (serverTickets : List Ticket) : ProgressResult :=
  let updateText := jsTrim draft
  if updateText.length < 5 then
    { tickets := tickets
      toast := { title := "Update Required"
                 description := "Enter at least 5 characters for progress update." }
      request := none
      refetched := false
      draftAfter := draft }
  else if !resp.success then
    { tickets := tickets
      toast := { title := "Update Failed"
                 description := jsErrText resp.error "Could not submit progress update." }
      request := some { ticketId := ticketId, updateText := updateText }
      refetched := false
      draftAfter := draft }
  else
    { tickets := serverTickets
      toast := { title := "Progress Updated"
                 description := "Daily progress update saved successfully." }
      request := some { ticketId := ticketId, updateText := updateText }
      refetched := true
      draftAfter := "" }

/-- Modelled from the spec: whether a ticket is assigned to the acting official.
The backend handler for `POST /tickets/:id/progress-update` is not part of the
repository files; the spec's transition table requires the ticket to be
assigned to the actor, which for a worker means membership in the assigned
worker ids and for a field inspector the `fieldInspectorId` field. -/
def isAssignedToActor (actorId : String) (t : Ticket) : Bool :=
  (ticketWorkerIds t).contains actorId || t.fieldInspectorId == some actorId

/-- Modelled from the spec: the backend effect of a progress update. It is
accepted only when the ticket is assigned to the actor, and it only rewrites
progress fields — the status is carried over unchanged ("unchanged; updates
progress fields + appends LogEntry"). -/
def serverApplyProgressUpdate (actorId : String) (t : Ticket)
    (req : ProgressRequest) : Option Ticket :=
  if isAssignedToActor actorId t then
    some { t with progressSummary := some req.updateText }
  else none

/-- Modelled from the spec: the backend effect of a permitted reopen. The
handler for `PATCH /tickets/:id/status` is not in the repository files; per
the spec, reopen "always produces state `open` plus non-empty `reopenedBy`"
tagged with the reopening department and time. -/
def serverApplyReopen (actorId actorName now : String) (t : Ticket) : Ticket :=
  { t with
    status := "open"
    reopenedBy := some { id := some actorId, name := some actorName, timestamp := some now } }

/-- The slice of the authenticated user object the login and routing logic
reads. -/
structure AuthUser where
  userType : String
  officialRole : Option String
deriving DecidableEq, Repr

/-- The client-side session store: the `auth_token` and `user` entries of
local storage (services/auth). -/
structure SessionStorage where
  auth_token : Option String
  user : Option AuthUser
deriving DecidableEq, Repr

/-- `LoginResponse` from services/auth: either a full auth payload (the object
with a `token` key, as `isAuthResponse` tests) or an OTP challenge (the object
with a `requiresOtp` key, as `isOtpChallenge` tests; its `requiresOtp` literal
is always `true`). -/
inductive LoginResponseData : Type
  | auth (token : String) (user : AuthUser)
  | otpChallenge (challengeId : String)
deriving DecidableEq, Repr

/-- The storage effect of `authService.login`: the token and user are persisted
only when the call succeeded and the payload carries a truthy `token`
(`response.success && (response.data as AuthResponse)?.token`). -/
def loginStoreEffect (st : SessionStorage) (resp : ApiResp LoginResponseData) :
    SessionStorage :=
  match resp.data with
  | some (LoginResponseData.auth tok u) =>
    if resp.success && !tok.isEmpty then { auth_token := some tok, user := some u }
    else st
  | _ => st

/-- The storage effect of `authService.logout`: both entries removed. -/
def logoutEffect (_ : SessionStorage) : SessionStorage :=
  { auth_token := none, user := none }

/-- How `handleSubmit` of OfficialLoginFormComponent ends, beyond its storage
effect. -/
inductive LoginOutcome : Type
  | captchaBlocked
  | otpPending (challengeId : String)
  | redirected (destination : String)
  | accessDenied
  | loginFailed (message : String)
deriving DecidableEq, Repr

/-- `handleSubmit` of OfficialLoginFormComponent.tsx as a function of the
session storage before the attempt, the captcha state and the awaited
`authService.login` response. The login call itself persists a session when
the payload carries a token; then: an OTP challenge parks the form, an allowed
role (`official` or `head_supervisor`) redirects to its dashboard, any other
successful outcome raises Access Denied and awaits `authService.logout`, and a
failed response surfaces `response.error || 'Invalid credentials'`. -/
def officialHandleSubmit (st : SessionStorage) (captchaValid : Bool)
    (resp : ApiResp LoginResponseData) : SessionStorage × LoginOutcome :=
  if !captchaValid then (st, LoginOutcome.captchaBlocked)
  else
    let st1 := loginStoreEffect st resp
    if resp.success then
      match resp.data with
      | some (LoginResponseData.otpChallenge cid) => (st1, LoginOutcome.otpPending cid)
      | some (LoginResponseData.auth _ u) =>
        if u.userType = "official" || u.userType = "head_supervisor" then
          (st1, LoginOutcome.redirected
            (if u.userType = "head_supervisor" then "/official/supervisor/dashboard"
             else "/official/dashboard"))
        else (logoutEffect st1, LoginOutcome.accessDenied)
      | none => (logoutEffect st1, LoginOutcome.accessDenied)
    else (st1, LoginOutcome.loginFailed (jsErrText resp.error "Invalid credentials"))

/-- What the RouteGuard component renders: a redirect (`Navigate`) or the
guarded route itself (`Outlet`). -/
inductive GuardResult : Type
  | navigate (dest : String)
  | outlet
deriving DecidableEq, Repr

/-- `RouteGuard` from components/auth/RouteGuard.tsx, over the authentication
flag, the cached user and the route's optional required role. -/
def routeGuard (isAuthenticated : Bool) (user : Option AuthUser)
    (requiredRole : Option String) : GuardResult :=
  match user with
  | none => GuardResult.navigate "/login"
  | some u =>
    if !isAuthenticated then GuardResult.navigate "/login"
    else
      match requiredRole with
      | none => GuardResult.outlet
      | some r =>
        if r = "head_supervisor" then
          if u.userType != "head_supervisor" then
            if u.userType = "official" then GuardResult.navigate "/official/dashboard"
            else GuardResult.navigate "/dashboard"
          else GuardResult.outlet
        else if r = "official" then
          if u.userType != "official" then
            if u.userType = "head_supervisor" then
              GuardResult.navigate "/official/supervisor/dashboard"
            else GuardResult.navigate "/dashboard"
          else GuardResult.outlet
        else if r = "citizen" && u.userType != "citizen" then
          if u.userType = "head_supervisor" then
            GuardResult.navigate "/official/supervisor/dashboard"
          else if u.userType = "official" then GuardResult.navigate "/official/dashboard"
          else GuardResult.navigate "/login"
        else GuardResult.outlet

/-- The claim's notion of "the home page for the user's actual role": the
official dashboard for officials, the supervisor dashboard for head
supervisors, the citizen dashboard for citizens. -/
def homeFor (userType : String) : String :=
  if userType = "head_supervisor" then "/official/supervisor/dashboard"
  else if userType = "official" then "/official/dashboard"
  else "/dashboard"

/-- The claim's wording of the assigned-worker-id precedence: the non-empty
trimmed worker ids of `assignees[]` if there are any, else the (trimmed,
filtered) `workerIds[]` when that array is non-empty, else the single truthy
`workerId`, else empty. Stated independently of `ticketWorkerIds` to compare
the two. -/
def claimAssignedWorkerIds (t : Ticket) : List String :=
  let fromAssignees :=
    ((t.assignees.getD []).map (fun row => jsTrim row.workerId)).filter
      (fun v => decide (0 < v.length))
  if fromAssignees ≠ [] then fromAssignees
  else if t.workerIds.getD [] ≠ [] then
    ((t.workerIds.getD []).map (fun v => jsTrim v)).filter (fun v => decide (0 < v.length))
  else if t.workerId.getD "" ≠ "" then [t.workerId.getD ""]
  else []

/-- The claim's wording of the assigned-name precedence: the names of
`assignees[]` (trimmed, non-empty) when that array is non-empty, then the
truthy `assigneeName`, then the truthy `assignedTo`, else empty. -/
def claimAssignedWorkerNames (t : Ticket) : List String :=
  if t.assignees.getD [] ≠ [] then
    ((t.assignees.getD []).map (fun row => jsTrim row.name)).filter
      (fun v => decide (0 < v.length))
  else if t.assigneeName.getD "" ≠ "" then [t.assigneeName.getD ""]
  else if t.assignedTo.getD "" ≠ "" then [t.assignedTo.getD ""]
  else []

/-- A concrete reopened ticket: department reopened it (metadata present), it
is back in state `open`, and one registered worker is assigned. -/
def sampleReopenedTicket : Ticket :=
  { id := "T1"
    status := "open"
    assignedTo := none
    assigneeName := none
    workerId := none
    workerIds := none
    assignees := some [{ workerId := "w1", name := "Worker One" }]
    fieldInspectorId := none
    progressSummary := none
    reopenedBy := some { id := some "d1", name := some "Dept", timestamp := some "2024-01-01" }
    reopenWarning := none }

/-- A concrete verified ticket with an assigned worker and no reopen
metadata. -/
def sampleVerifiedTicket : Ticket :=
  { id := "T2"
    status := "verified"
    assignedTo := none
    assigneeName := none
    workerId := none
    workerIds := none
    assignees := some [{ workerId := "w1", name := "Worker One" }]
    fieldInspectorId := none
    progressSummary := none
    reopenedBy := none
    reopenWarning := none }

/-- A concrete open, unassigned ticket. -/
def sampleOpenTicket : Ticket :=
  { id := "T3"
    status := "open"
    assignedTo := none
    assigneeName := none
    workerId := none
    workerIds := none
    assignees := none
    fieldInspectorId := none
    progressSummary := none
    reopenedBy := none
    reopenWarning := none }

section Theorems

/-- Bridging fact between the JavaScript truthiness test on a string and
equality with the empty string. -/
theorem isEmpty_false_iff (s : String) : s.isEmpty = false ↔ ¬s = "" := by
  rw [Bool.eq_false_iff]
  simp [String.isEmpty_iff]

/-- Claim C1, counterexample: the claim asserts that a supervisor is never
permitted to verify a ticket carrying reopened-by-department metadata, but on
`sampleReopenedTicket` — reopened metadata present, status `open`, one
assigned worker — the dashboard shows the Verify button to a supervisor. -/
theorem supervisor_verifies_reopened_cex :
    isReopenedCase sampleReopenedTicket = true ∧
    verifyButtonShown Role.supervisor true sampleReopenedTicket = true := by
  decide

/-- Claim C1 (amended): on the tickets page, the Verify action is offered iff
the ticket has at least one assigned worker, its status is neither `resolved`
nor `verified`, and the actor is a supervisor (in every case, reopened tickets
included) or a department official on a reopened case; the code does not make
verification of reopened tickets exclusive to department. -/
theorem verify_offered_iff (role : Role) (t : Ticket) :
    verifyButtonShown role true t = true ↔
      (hasAssignedWorker t = true ∧ t.status ≠ "resolved" ∧ t.status ≠ "verified" ∧
        (role = Role.supervisor ∨ (role = Role.department ∧ isReopenedCase t = true))) := by
  cases role <;>
    simp [verifyButtonShown, showSupervisorActions, isSupervisorLockedTicket,
      canVerify, canDepartmentManageReopened] <;>
    tauto

/-- Claim C2: once a ticket is `verified` or `resolved`, the assign-workers
control is never rendered: in particular never for a supervisor, and any role
for which it were rendered would have to be department on a reopened case — in
fact the code renders it for no role at all in these states (the
department-on-reopened block shows the lock notice when `verified` and is not
shown when `resolved`). -/
theorem locked_ticket_no_assignment (role : Role) (page : Bool) (t : Ticket)
    (h : t.status = "verified" ∨ t.status = "resolved") :
    assignActionShown Role.supervisor page t = false ∧
    (assignActionShown role page t = true →
      role = Role.department ∧ isReopenedCase t = true) ∧
    assignActionShown role page t = false := by
  rcases h with h | h <;> cases role <;>
    simp [assignActionShown, showSupervisorActions, isSupervisorLockedTicket,
      canDepartmentManageReopened, h]

/-- Claim C2, witness: the lockout at the concrete verified ticket. -/
theorem locked_ticket_no_assignment_witness :
    assignActionShown Role.supervisor true sampleVerifiedTicket = false :=
  (locked_ticket_no_assignment Role.supervisor true sampleVerifiedTicket
    (Or.inl rfl)).1

/-- Claim C3: on the tickets page the Reopen button is offered exactly to a
department official on a `resolved` ticket; its click handler requests the
status transition to `open`; and the (spec-modelled) backend transition
produces state `open` with `reopenedBy` metadata recorded. -/
theorem reopen_offered_iff (role : Role) (t : Ticket) :
    (reopenButtonShown role true t = true ↔
      (role = Role.department ∧ t.status = "resolved")) ∧
    statusSent TicketAction.reopenAction = "open" ∧
    (∀ actorId actorName now : String,
      (serverApplyReopen actorId actorName now t).status = "open" ∧
      (serverApplyReopen actorId actorName now t).reopenedBy.isSome = true) := by
  cases role <;>
    simp [reopenButtonShown, showDepartmentActions, canReopen, statusSent,
      serverApplyReopen]

/-- Claim C4: on the tickets page the department Resolve button is offered iff
the ticket is not already `resolved`; the supervisor Resolve button is offered
iff the ticket is not a reopened case and its status is neither `verified` nor
`resolved`; no other role is offered a Resolve button; and the button requests
the status `resolved`. -/
theorem resolve_offered_iff (role : Role) (t : Ticket) :
    (deptResolveButtonShown role true t = true ↔
      (role = Role.department ∧ t.status ≠ "resolved")) ∧
    (supervisorResolveButtonShown role true t = true ↔
      (role = Role.supervisor ∧ isReopenedCase t = false ∧
        t.status ≠ "resolved" ∧ t.status ≠ "verified")) ∧
    ((deptResolveButtonShown role true t || supervisorResolveButtonShown role true t) = true →
      role = Role.department ∨ role = Role.supervisor) ∧
    statusSent TicketAction.resolveAction = "resolved" := by
  cases role <;>
    simp [deptResolveButtonShown, supervisorResolveButtonShown, showDepartmentActions,
      showSupervisorActions, isSupervisorLockedTicket, canResolve, canSupervisorResolve,
      canDepartmentManageReopened, statusSent]
  all_goals tauto

/-- Claim C5: for every ticket-transition handler (status update, worker
assignment, progress update), a failed response leaves the cached ticket list
untouched and does not refetch; a failed response that carries a (non-empty)
server error message surfaces exactly that message in the toast; and a
successful response — whenever a request was issued at all — replaces the
cache by a fresh server fetch rather than a local mutation. -/
theorem transition_failure_semantics (tickets serverTickets : List Ticket)
    (ticketId status draft : String) (t : Ticket)
    (sel : Option (List String)) (resp : ApiResp Ticket) :
    (resp.success = false →
      (handleStatusChange tickets ticketId status resp serverTickets).tickets = tickets ∧
      (handleStatusChange tickets ticketId status resp serverTickets).refetched = false ∧
      (handleAssignWorker tickets t sel resp serverTickets).tickets = tickets ∧
      (handleAssignWorker tickets t sel resp serverTickets).refetched = false ∧
      (handleProgressUpdate tickets ticketId draft resp serverTickets).tickets = tickets ∧
      (handleProgressUpdate tickets ticketId draft resp serverTickets).refetched = false) ∧
    (∀ m : String, resp.success = false → resp.error = some m → m ≠ "" →
      (handleStatusChange tickets ticketId status resp serverTickets).toast.description = m ∧
      ((handleAssignWorker tickets t sel resp serverTickets).request.isSome = true →
        (handleAssignWorker tickets t sel resp serverTickets).toast.description = m) ∧
      ((handleProgressUpdate tickets ticketId draft resp serverTickets).request.isSome = true →
        (handleProgressUpdate tickets ticketId draft resp serverTickets).toast.description = m)) ∧
    (resp.success = true →
      (handleStatusChange tickets ticketId status resp serverTickets).tickets = serverTickets ∧
      (handleStatusChange tickets ticketId status resp serverTickets).refetched = true ∧
      ((handleAssignWorker tickets t sel resp serverTickets).request.isSome = true →
        (handleAssignWorker tickets t sel resp serverTickets).tickets = serverTickets ∧
        (handleAssignWorker tickets t sel resp serverTickets).refetched = true) ∧
      ((handleProgressUpdate tickets ticketId draft resp serverTickets).request.isSome = true →
        (handleProgressUpdate tickets ticketId draft resp serverTickets).tickets = serverTickets ∧
        (handleProgressUpdate tickets ticketId draft resp serverTickets).refetched = true)) := by
  refine ⟨fun h => ?_, fun m h he hm => ?_, fun h => ?_⟩
  · refine ⟨?_, ?_, ?_, ?_, ?_, ?_⟩ <;>
      simp [handleStatusChange, handleAssignWorker, handleProgressUpdate, h] <;>
      (try split <;> simp)
  · refine ⟨?_, ?_, ?_⟩ <;>
      simp [handleStatusChange, handleAssignWorker, handleProgressUpdate, h, he,
        jsErrText, String.isEmpty_iff, hm] <;>
      (try split <;> simp [String.isEmpty_iff, hm])
  · refine ⟨?_, ?_, ?_, ?_⟩ <;>
      simp [handleStatusChange, handleAssignWorker, handleProgressUpdate, h] <;>
      (try split <;> simp)

/-- Claim C6: the progress editor is rendered only for field inspectors and
workers; a draft whose trimmed text has fewer than 5 characters is rejected
client-side with the validation toast and no network request; every request
that is issued carries the trimmed text of at least 5 characters; and the
(spec-modelled) backend accepts a progress update only for a ticket assigned
to the actor, and never changes its status. -/
theorem progress_update_rule (role : Role) (page : Bool)
    (tickets serverTickets : List Ticket) (ticketId draft actorId : String)
    (t t' : Ticket) (req : ProgressRequest) (resp : ApiResp Ticket) :
    (showProgressEditor role page = true →
      role = Role.field_inspector ∨ role = Role.worker) ∧
    ((jsTrim draft).length < 5 →
      (handleProgressUpdate tickets ticketId draft resp serverTickets).request = none ∧
      (handleProgressUpdate tickets ticketId draft resp serverTickets).tickets = tickets ∧
      (handleProgressUpdate tickets ticketId draft resp serverTickets).toast =
        { title := "Update Required"
          description := "Enter at least 5 characters for progress update." }) ∧
    ((handleProgressUpdate tickets ticketId draft resp serverTickets).request = some req →
      req.updateText = jsTrim draft ∧ 5 ≤ req.updateText.length) ∧
    (serverApplyProgressUpdate actorId t req = some t' →
      t'.status = t.status ∧ isAssignedToActor actorId t = true) := by
  refine ⟨?_, fun h => ?_, fun h => ?_, fun h => ?_⟩
  · cases role <;> simp [showProgressEditor]
  · simp [handleProgressUpdate, h]
  · revert h
    simp only [handleProgressUpdate]
    split
    · simp
    · split <;>
        (intro h
         rcases h with ⟨rfl⟩
         simp_all [Nat.not_lt])
  · revert h
    simp only [serverApplyProgressUpdate]
    split <;> intro h
    · rcases h with ⟨rfl⟩
      simp_all
    · simp_all

/-- Claim C7: when an official-portal login succeeds with a full auth payload
whose role is outside the allowed set `{official, head_supervisor}`, the form
logs out immediately — afterwards neither a token nor a cached user remains in
storage — and raises the access-denied outcome; for an allowed role the
session (token and user) is retained. -/
theorem official_login_role_mismatch (st : SessionStorage)
    (resp : ApiResp LoginResponseData) (tok : String) (u : AuthUser) :
    (resp.success = true → resp.data = some (LoginResponseData.auth tok u) →
      u.userType ≠ "official" → u.userType ≠ "head_supervisor" →
      (officialHandleSubmit st true resp).1.auth_token = none ∧
      (officialHandleSubmit st true resp).1.user = none ∧
      (officialHandleSubmit st true resp).2 = LoginOutcome.accessDenied) ∧
    (resp.success = true → resp.data = some (LoginResponseData.auth tok u) →
      (u.userType = "official" ∨ u.userType = "head_supervisor") → tok ≠ "" →
      (officialHandleSubmit st true resp).1.auth_token = some tok ∧
      (officialHandleSubmit st true resp).1.user = some u) := by
  constructor
  · intro hs hd h1 h2
    simp [officialHandleSubmit, loginStoreEffect, logoutEffect, hs, hd, h1, h2]
  · intro hs hd hr ht
    have hne : tok.isEmpty = false := by
      rw [Bool.eq_false_iff]
      simp [String.isEmpty_iff, ht]
    rcases hr with hr | hr <;>
      simp [officialHandleSubmit, loginStoreEffect, hs, hd, hr, hne]

/-- Claim C8: an authenticated user (of one of the three role classes) hitting
a route with a required role that does not match is redirected to the home
page of their actual role — never blocked in place — and a route with no
required role always lets an authenticated user through. -/
theorem route_guard_redirect_rule (u : AuthUser) (required : String) :
    (routeGuard true (some u) none = GuardResult.outlet) ∧
    ((u.userType = "citizen" ∨ u.userType = "official" ∨ u.userType = "head_supervisor") →
      (required = "citizen" ∨ required = "official" ∨ required = "head_supervisor") →
      u.userType ≠ required →
      routeGuard true (some u) (some required) =
        GuardResult.navigate (homeFor u.userType)) := by
  constructor
  · simp [routeGuard]
  · intro hu hr hne
    rcases hu with hu | hu | hu <;> rcases hr with hr | hr | hr <;>
      simp_all [routeGuard, homeFor]

/-- Claim C9: the dashboard's resolution of the overlapping legacy assignment
fields agrees with the claimed fixed precedence, for ids and names alike, and
the has-assigned-worker gate used by Verify is exactly non-emptiness of the
name list. -/
theorem assignment_precedence_rule (t : Ticket) :
    ticketWorkerIds t = claimAssignedWorkerIds t ∧
    ticketWorkerNames t = claimAssignedWorkerNames t ∧
    (hasAssignedWorker t = true ↔ ticketWorkerNames t ≠ []) := by
  obtain ⟨id, status, aTo, aName, wId, wIds, asg, fi, ps, rb, rw⟩ := t
  refine ⟨?_, ?_, ?_⟩
  · rcases asg with _ | (_ | ⟨r, l⟩) <;> rcases wIds with _ | (_ | ⟨w2, l2⟩) <;>
      rcases wId with _ | w <;>
      simp [ticketWorkerIds, claimAssignedWorkerIds, jsArrayNonempty, optTruthy,
        List.length_pos, isEmpty_false_iff, ite_not]
  · rcases asg with _ | (_ | ⟨r, l⟩) <;> rcases aName with _ | n <;> rcases aTo with _ | a <;>
      simp [ticketWorkerNames, claimAssignedWorkerNames, jsArrayNonempty, optTruthy,
        List.length_pos, isEmpty_false_iff, ite_not]
  · simp [hasAssignedWorker, List.length_pos]

/-- Claim C10: any `officialRole` value whose normalization (trim, lower-case,
first dash to underscore) is none of `supervisor`, `field_inspector`,
`worker` — including a missing or empty value — maps to the `department`
dashboard role; the three recognized strings map to their own roles. -/
theorem toRole_department_default (v : Option String) :
    toRole none = Role.department ∧
    toRole (some "") = Role.department ∧
    (normalizeOfficialRole v ≠ "supervisor" →
      normalizeOfficialRole v ≠ "field_inspector" →
      normalizeOfficialRole v ≠ "worker" → toRole v = Role.department) ∧
    (normalizeOfficialRole v = "supervisor" → toRole v = Role.supervisor) ∧
    (normalizeOfficialRole v = "field_inspector" → toRole v = Role.field_inspector) ∧
    (normalizeOfficialRole v = "worker" → toRole v = Role.worker) := by
  refine ⟨by decide, by decide, fun h1 h2 h3 => ?_, fun h => ?_, fun h => ?_,
    fun h => ?_⟩ <;>
    simp_all [toRole]

/- Concrete sanity checks: the gating predicates and handlers are executable
and behave as expected on sample inputs (the inner cases the theorems above
quantify over are all inhabited). -/

example : verifyButtonShown Role.department true sampleReopenedTicket = true := by decide
example : verifyButtonShown Role.department true sampleVerifiedTicket = false := by decide
example : verifyButtonShown Role.supervisor true sampleOpenTicket = false := by decide
example : assignActionShown Role.supervisor true sampleOpenTicket = true := by decide
example : assignActionShown Role.supervisor true sampleVerifiedTicket = false := by decide
example :
    reopenButtonShown Role.department true
      { sampleOpenTicket with status := "resolved" } = true := by decide
example :
    supervisorResolveButtonShown Role.supervisor true sampleReopenedTicket = false := by
  decide
example :
    routeGuard true (some { userType := "citizen", officialRole := none })
      (some "official") = GuardResult.navigate "/dashboard" := by decide
example :
    (officialHandleSubmit { auth_token := none, user := none } true
      { success := true
        data := some (LoginResponseData.auth "tok" { userType := "citizen", officialRole := none })
        error := none }).2 = LoginOutcome.accessDenied := by decide
example :
    (handleProgressUpdate [] "T1" " ab " { success := true, data := none, error := none }
      []).request = none := by decide
example : toRole (some " Field-Inspector ") = Role.field_inspector := by decide
example : toRole (some "head_of_city") = Role.department := by decide

end Theorems

end SmartCity
